import Mathlib

/-!
# Verification of the GRUB USB SNES gamepad driver core

Shallow embedding of the two driver variants in this repository,
`src/usb_snes.c` (namespace `UsbSnes`) and `src/usb_snes_gamepad.c`
(namespace `Gamepad`): the report codec, the ring queue of pending key
codes, the per-device poll step, the attach filter, and the slot
registry attach/detach logic.  Machine bytes are modelled as `Nat`
(report bytes are always compared or bit-masked, never overflowed), the
fixed 32-cell key array as a `List Nat` of length 32 with explicit
`% 32` index arithmetic, and the host USB layer as oracle arguments
(transfer-check result, byte count, re-arm result) passed to the poll
step.
-/

set_option maxRecDepth 10000

/-! ## GRUB terminal key constants

Modelled from the GRUB host header `grub/term.h` (external to this
repository).  The development only relies on these named codes being
pairwise distinct and nonzero; the concrete values are the ones GRUB 2
defines. -/

def GRUB_TERM_NO_KEY : Nat := 0

def GRUB_TERM_ESC : Nat := 0x1b

def GRUB_TERM_EXTENDED : Nat := 0x800000

def GRUB_TERM_KEY_UP : Nat := GRUB_TERM_EXTENDED ||| 0x48

def GRUB_TERM_KEY_DOWN : Nat := GRUB_TERM_EXTENDED ||| 0x50

def GRUB_TERM_KEY_LEFT : Nat := GRUB_TERM_EXTENDED ||| 0x4b

def GRUB_TERM_KEY_RIGHT : Nat := GRUB_TERM_EXTENDED ||| 0x4d

def GRUB_TERM_KEY_PPAGE : Nat := GRUB_TERM_EXTENDED ||| 0x49

def GRUB_TERM_KEY_NPAGE : Nat := GRUB_TERM_EXTENDED ||| 0x51

/-- The C character literal `'\r'` (Enter). -/
def CHAR_CR : Nat := 13

/-- The C character literal `'e'` (edit in GRUB). -/
def CHAR_e : Nat := 101

/-- The C character literal `'c'` (command line in GRUB). -/
def CHAR_c : Nat := 99

/-! ## Reports and axis thresholding (shared by both variants) -/

/-- An 8-byte HID report (`grub_uint8_t report[8]`), one field per byte. -/
structure Report where
  b0 : Nat
  b1 : Nat
  b2 : Nat
  b3 : Nat
  b4 : Nat
  b5 : Nat
  b6 : Nat
  b7 : Nat
deriving DecidableEq

/-- `#define AXIS_CENTER 0x7F` (identical in both files). -/
def AXIS_CENTER : Nat := 0x7F

/-- `#define AXIS_THRESHOLD 0x40` (identical in both files). -/
def AXIS_THRESHOLD : Nat := 0x40

/-- The C expression `v < AXIS_CENTER - AXIS_THRESHOLD` used for the
up/left axis tests in both `parse_snes_report` and `process_report`. -/
def axis_lo (v : Nat) : Prop := v < AXIS_CENTER - AXIS_THRESHOLD

/-- The C expression `v > AXIS_CENTER + AXIS_THRESHOLD` used for the
down/right axis tests in both `parse_snes_report` and `process_report`. -/
def axis_hi (v : Nat) : Prop := v > AXIS_CENTER + AXIS_THRESHOLD

instance (v : Nat) : Decidable (axis_lo v) := by unfold axis_lo; infer_instance

instance (v : Nat) : Decidable (axis_hi v) := by unfold axis_hi; infer_instance

/-- The `BTN_PRESSED(p, c, m)` macro of `usb_snes_gamepad.c`
(`!(p & m) && (c & m)`); `usb_snes.c` writes the same test inline. -/
def BTN_PRESSED (p c m : Nat) : Prop := p &&& m = 0 ∧ c &&& m ≠ 0

instance (p c m : Nat) : Decidable (BTN_PRESSED p c m) := by
  unfold BTN_PRESSED; infer_instance

/-- The centered baseline report `{0x7F,0x7F,0x7F,0x7F,0,0,0,0}` both
variants install as `prev_report` at attach time. -/
def baseline_report : Report :=
  ⟨AXIS_CENTER, AXIS_CENTER, AXIS_CENTER, AXIS_CENTER, 0, 0, 0, 0⟩

/-! ## Variant 1: `src/usb_snes.c` -/

namespace UsbSnes

/-- The key-queue fields of `struct grub_usb_snes_data` in `usb_snes.c`:
`int key_queue[32]; int key_queue_head; int key_queue_tail;
int key_queue_count;`.  The backing array is a length-32 list. -/
structure KeyQueue where
  key_queue : List Nat
  key_queue_head : Nat
  key_queue_tail : Nat
  key_queue_count : Nat
deriving DecidableEq

/-- A freshly zeroed queue (the struct is `grub_memset` to 0 at attach). -/
def emptyQueue : KeyQueue := ⟨List.replicate 32 0, 0, 0, 0⟩

/-- `key_queue_push` of `usb_snes.c`: drops the key when the queue is
full (`count >= 32`) or the key is `GRUB_TERM_NO_KEY`. -/
def key_queue_push (d : KeyQueue) (key : Nat) : KeyQueue :=
  if 32 ≤ d.key_queue_count ∨ key = GRUB_TERM_NO_KEY then d
  else
    { key_queue := d.key_queue.set d.key_queue_tail key
      key_queue_head := d.key_queue_head
      key_queue_tail := (d.key_queue_tail + 1) % 32
      key_queue_count := d.key_queue_count + 1 }

/-- `key_queue_pop` of `usb_snes.c`: returns the updated queue and the
popped key (`GRUB_TERM_NO_KEY` when empty). -/
def key_queue_pop (d : KeyQueue) : KeyQueue × Nat :=
  if d.key_queue_count ≤ 0 then (d, GRUB_TERM_NO_KEY)
  else
    ({ key_queue := d.key_queue
       key_queue_head := (d.key_queue_head + 1) % 32
       key_queue_tail := d.key_queue_tail
       key_queue_count := d.key_queue_count - 1 },
     d.key_queue.getD d.key_queue_head 0)

/-- Sequential pushes, as performed by the `key_queue_push` calls of
`parse_snes_report` in program order. -/
def key_queue_push_all (d : KeyQueue) (keys : List Nat) : KeyQueue :=
  keys.foldl key_queue_push d

/-- Representation invariant of the C ring buffer: 32 cells, indices in
range, `tail` at distance `count` past `head`. -/
structure QueueInv (d : KeyQueue) : Prop where
  len : d.key_queue.length = 32
  head_lt : d.key_queue_head < 32
  tail_lt : d.key_queue_tail < 32
  count_le : d.key_queue_count ≤ 32
  tail_eq : d.key_queue_tail = (d.key_queue_head + d.key_queue_count) % 32

/-- Abstraction: the queued keys in FIFO order (`count` cells starting
at `head`). -/
def queueList (d : KeyQueue) : List Nat :=
  (List.range d.key_queue_count).map
    (fun i => d.key_queue.getD ((d.key_queue_head + i) % 32) 0)

/-- `parse_snes_report` of `usb_snes.c` as a pure codec: the key codes
pushed, in program order, for a (previous, current) report pair. -/
def parse_snes_report (prev curr : Report) : List Nat :=
  (if ¬ axis_lo prev.b1 ∧ axis_lo curr.b1 then [GRUB_TERM_KEY_UP] else []) ++
  (if ¬ axis_hi prev.b1 ∧ axis_hi curr.b1 then [GRUB_TERM_KEY_DOWN] else []) ++
  (if ¬ axis_lo prev.b0 ∧ axis_lo curr.b0 then [GRUB_TERM_KEY_LEFT] else []) ++
  (if ¬ axis_hi prev.b0 ∧ axis_hi curr.b0 then [GRUB_TERM_KEY_RIGHT] else []) ++
  (if BTN_PRESSED prev.b4 curr.b4 0x02 ∨ BTN_PRESSED prev.b4 curr.b4 0x04
     then [CHAR_CR] else []) ++
  (if BTN_PRESSED prev.b4 curr.b4 0x80 then [CHAR_CR] else []) ++
  (if BTN_PRESSED prev.b4 curr.b4 0x40 then [GRUB_TERM_ESC] else []) ++
  (if BTN_PRESSED prev.b4 curr.b4 0x01 then [CHAR_e] else []) ++
  (if BTN_PRESSED prev.b4 curr.b4 0x08 then [CHAR_c] else []) ++
  (if BTN_PRESSED prev.b4 curr.b4 0x10 then [GRUB_TERM_KEY_PPAGE] else []) ++
  (if BTN_PRESSED prev.b4 curr.b4 0x20 then [GRUB_TERM_KEY_NPAGE] else [])

end UsbSnes

/-! ## Variant 2: `src/usb_snes_gamepad.c` -/

namespace Gamepad

/-- Key mapping globals of `usb_snes_gamepad.c` (`key_a`..`key_r`). -/
def key_up : Nat := GRUB_TERM_KEY_UP

def key_down : Nat := GRUB_TERM_KEY_DOWN

def key_left : Nat := GRUB_TERM_KEY_LEFT

def key_right : Nat := GRUB_TERM_KEY_RIGHT

def key_a : Nat := CHAR_CR

def key_b : Nat := GRUB_TERM_ESC

def key_start : Nat := CHAR_CR

def key_select : Nat := CHAR_e

def key_x : Nat := CHAR_c

def key_y : Nat := GRUB_TERM_ESC

def key_l : Nat := GRUB_TERM_KEY_PPAGE

def key_r : Nat := GRUB_TERM_KEY_NPAGE

/-- Button bit masks `BTN_X .. BTN_START` of `usb_snes_gamepad.c`. -/
def BTN_X : Nat := 1 <<< 0

def BTN_A : Nat := 1 <<< 1

def BTN_B : Nat := 1 <<< 2

def BTN_Y : Nat := 1 <<< 3

def BTN_L : Nat := 1 <<< 4

def BTN_R : Nat := 1 <<< 5

def BTN_SELECT : Nat := 1 <<< 6

def BTN_START : Nat := 1 <<< 7

/-- The key-queue fields of `struct grub_usb_snes_data` in
`usb_snes_gamepad.c`: `int key_queue[32]; int key_queue_begin;
int key_queue_size;`. -/
structure KeyQueue where
  key_queue : List Nat
  key_queue_begin : Nat
  key_queue_size : Nat
deriving DecidableEq

/-- A fresh queue (`key_queue_begin = 0`, `key_queue_size = 0`). -/
def emptyQueue : KeyQueue := ⟨List.replicate 32 0, 0, 0⟩

/-- `key_queue_push` of `usb_snes_gamepad.c`: writes at the tail cell
`(begin + size) % 32`; when the queue is full it advances `begin`,
dropping the oldest element. -/
def key_queue_push (d : KeyQueue) (key : Nat) : KeyQueue :=
  if key = GRUB_TERM_NO_KEY then d
  else
    let pos := (d.key_queue_begin + d.key_queue_size) % 32
    let arr := d.key_queue.set pos key
    if d.key_queue_size < 32 then
      { key_queue := arr
        key_queue_begin := d.key_queue_begin
        key_queue_size := d.key_queue_size + 1 }
    else
      { key_queue := arr
        key_queue_begin := (d.key_queue_begin + 1) % 32
        key_queue_size := d.key_queue_size }

/-- `key_queue_pop` of `usb_snes_gamepad.c`. -/
def key_queue_pop (d : KeyQueue) : KeyQueue × Nat :=
  if d.key_queue_size ≤ 0 then (d, GRUB_TERM_NO_KEY)
  else
    ({ key_queue := d.key_queue
       key_queue_begin := (d.key_queue_begin + 1) % 32
       key_queue_size := d.key_queue_size - 1 },
     d.key_queue.getD d.key_queue_begin 0)

/-- Sequential pushes in program order. -/
def key_queue_push_all (d : KeyQueue) (keys : List Nat) : KeyQueue :=
  keys.foldl key_queue_push d

/-- Representation invariant: 32 cells, `begin` in range, `size` bounded. -/
structure QueueInv (d : KeyQueue) : Prop where
  len : d.key_queue.length = 32
  begin_lt : d.key_queue_begin < 32
  size_le : d.key_queue_size ≤ 32

/-- Abstraction: the queued keys in FIFO order. -/
def queueList (d : KeyQueue) : List Nat :=
  (List.range d.key_queue_size).map
    (fun i => d.key_queue.getD ((d.key_queue_begin + i) % 32) 0)

/-- `process_report` of `usb_snes_gamepad.c` as a pure codec: the key
codes pushed, in program order. -/
def process_report (prev curr : Report) : List Nat :=
  (if ¬ axis_lo prev.b1 ∧ axis_lo curr.b1 then [key_up] else []) ++
  (if ¬ axis_hi prev.b1 ∧ axis_hi curr.b1 then [key_down] else []) ++
  (if ¬ axis_lo prev.b0 ∧ axis_lo curr.b0 then [key_left] else []) ++
  (if ¬ axis_hi prev.b0 ∧ axis_hi curr.b0 then [key_right] else []) ++
  (if BTN_PRESSED prev.b4 curr.b4 BTN_A then [key_a] else []) ++
  (if BTN_PRESSED prev.b4 curr.b4 BTN_B then [key_b] else []) ++
  (if BTN_PRESSED prev.b4 curr.b4 BTN_X then [key_x] else []) ++
  (if BTN_PRESSED prev.b4 curr.b4 BTN_Y then [key_y] else []) ++
  (if BTN_PRESSED prev.b4 curr.b4 BTN_START then [key_start] else []) ++
  (if BTN_PRESSED prev.b4 curr.b4 BTN_SELECT then [key_select] else []) ++
  (if BTN_PRESSED prev.b4 curr.b4 BTN_L then [key_l] else []) ++
  (if BTN_PRESSED prev.b4 curr.b4 BTN_R then [key_r] else [])

end Gamepad

/-! ## Host USB layer, modelled as oracle inputs

`grub_usb_check_transfer` returns `GRUB_USB_ERR_NONE`,
`GRUB_USB_ERR_WAIT` (transfer still pending) or some error code; the
drivers only ever compare against `NONE` and `WAIT`, so all other codes
collapse into one constructor.  `grub_usb_bulk_read_background` returns
a transfer handle or `NULL`; handles are opaque naturals. -/

inductive UsbErr where
  | NONE : UsbErr
  | WAIT : UsbErr
  | ERR : UsbErr
deriving DecidableEq

namespace UsbSnes

/-- The session fields of `struct grub_usb_snes_data` in `usb_snes.c`
relevant to the poll step (queue fields grouped in `KeyQueue`). -/
structure DeviceData where
  report : Report
  prev_report : Report
  dead : Bool
  transfer : Option Nat
  queue : KeyQueue
deriving DecidableEq

/-- `grub_usb_snes_getkey` of `usb_snes.c`, one poll step.  `err` and
`actual` are the outcome of `grub_usb_check_transfer` on the
outstanding transfer, `rearm` the handle returned by
`grub_usb_bulk_read_background` (`none` = `NULL`).  By the time the
poll runs, the completed read has already deposited its bytes in
`data.report`.  Returns the new session state and the key code. -/
def grub_usb_snes_getkey (data : DeviceData) (err : UsbErr) (actual : Nat)
    (rearm : Option Nat) : DeviceData × Nat :=
  if data.dead then (data, GRUB_TERM_NO_KEY)
  else if 0 < data.queue.key_queue_count then
    let pq := key_queue_pop data.queue
    ({ data with queue := pq.1 }, pq.2)
  else if err = UsbErr.WAIT then (data, GRUB_TERM_NO_KEY)
  else
    let d1 :=
      if err = UsbErr.NONE ∧ 1 ≤ actual then
        { data with
          queue := key_queue_push_all data.queue
            (parse_snes_report data.prev_report data.report)
          prev_report := data.report }
      else data
    match rearm with
    | none => ({ d1 with transfer := none, dead := true }, GRUB_TERM_NO_KEY)
    | some t =>
      let pq := key_queue_pop d1.queue
      ({ d1 with queue := pq.1, transfer := some t }, pq.2)

/-- The `supported_devices` VID/PID table of `usb_snes.c` (entries
before the `{0, 0}` end marker). -/
def supported_devices : List (Nat × Nat) :=
  [(0x0810, 0xe501), (0x0079, 0x0011), (0x0583, 0x2060), (0x2dc8, 0x9018),
   (0x12bd, 0xd015), (0x1a34, 0x0802), (0x0810, 0x0001), (0x0079, 0x0006),
   (0x046d, 0xc218)]

/-- `is_supported_device` of `usb_snes.c`: linear scan of the table. -/
def is_supported_device (vid pid : Nat) : Bool :=
  supported_devices.any (fun d => d.1 == vid && d.2 == pid)

/-- The device-identity filter at the top of `grub_usb_snes_attach` in
`usb_snes.c`: the function reads only the VID/PID; the interface
protocol byte is never consulted (hence the unused argument). -/
def attach_accepts (vid pid _protocol : Nat) : Bool :=
  is_supported_device vid pid

end UsbSnes

namespace Gamepad

/-- The session fields of `struct grub_usb_snes_data` in
`usb_snes_gamepad.c` relevant to the poll step; this variant has no
`dead` flag. -/
structure DeviceData where
  report : Report
  prev_report : Report
  transfer : Option Nat
  queue : KeyQueue
deriving DecidableEq

/-- `grub_usb_snes_getkey` of `usb_snes_gamepad.c`, one poll step.  On
any completed transfer (`err ≠ WAIT`) it processes the report only for
an exactly-8-byte success, then unconditionally copies `report` into
`prev_report`, re-arms, and finally pops; on a pending transfer it just
pops. -/
def grub_usb_snes_getkey (data : DeviceData) (err : UsbErr) (actual : Nat)
    (rearm : Option Nat) : DeviceData × Nat :=
  if err ≠ UsbErr.WAIT then
    let d1 :=
      if err = UsbErr.NONE ∧ actual = 8 then
        { data with
          queue := key_queue_push_all data.queue
            (process_report data.prev_report data.report) }
      else data
    let d2 := { d1 with prev_report := d1.report, transfer := rearm }
    let pq := key_queue_pop d2.queue
    ({ d2 with queue := pq.1 }, pq.2)
  else
    let pq := key_queue_pop data.queue
    ({ data with queue := pq.1 }, pq.2)

/-- The `known_devices` VID/PID table of `usb_snes_gamepad.c` (entries
before the `{0, 0, NULL}` end marker). -/
def known_devices : List (Nat × Nat) :=
  [(0x0810, 0xe501), (0x0079, 0x0011), (0x0583, 0x2060), (0x2dc8, 0x9018),
   (0x12bd, 0xd015), (0x1a34, 0x0802), (0x0810, 0x0001), (0x0079, 0x0006)]

/-- `get_device_name` of `usb_snes_gamepad.c`, with the matched table
entry standing in for the name string (`none` = `NULL`). -/
def get_device_name (vid pid : Nat) : Option (Nat × Nat) :=
  known_devices.find? (fun d => d.1 == vid && d.2 == pid)

/-- `#define ACCEPT_ANY_HID 1` in `usb_snes_gamepad.c`. -/
def ACCEPT_ANY_HID : Bool := true

/-- The device-identity filter at the top of `grub_usb_snes_attach` in
`usb_snes_gamepad.c`: with `ACCEPT_ANY_HID` compiled in, it rejects
exactly the keyboard-protocol devices (`descif->protocol == 0x01`);
otherwise it would require a `known_devices` match. -/
def attach_accepts (vid pid protocol : Nat) : Bool :=
  if ACCEPT_ANY_HID then protocol != 1
  else (get_device_name vid pid).isSome

end Gamepad

/-! ## Slot registry: detach (identical loop in both files)

`grub_usb_snes_detach` in `usb_snes.c` and in `usb_snes_gamepad.c` are
the same loop over the 8-entry terminal array: for every slot whose
session is present and stores the detaching device handle, cancel the
outstanding transfer (if any), unregister the input source, free the
name and the session, and null both out.  Side effects are modelled as
outputs: the list of canceled transfer handles, in loop order. -/

/-- A device session as seen by the detach loop: the stored device
handle and the outstanding transfer handle (`none` = `NULL`). -/
structure SlotSession where
  usbdev : Nat
  transfer : Option Nat
deriving DecidableEq

/-- One entry of the fixed terminal array: name allocation, session
pointer (`none` = `NULL` = free slot), and whether the slot's input
source is currently registered. -/
structure Slot where
  name : Option Nat
  data : Option SlotSession
  registered : Bool
deriving DecidableEq

instance : Inhabited Slot := ⟨⟨none, none, false⟩⟩

/-- The body of the detach loop for one slot. -/
def detach_slot_step (usbdev : Nat) (s : Slot) : Slot :=
  match s.data with
  | none => s
  | some sess => if sess.usbdev = usbdev then ⟨none, none, false⟩ else s

/-- `grub_usb_snes_detach` (both files): the updated slot array and the
canceled transfer handles in loop order. -/
def grub_usb_snes_detach (usbdev : Nat) (slots : List Slot) :
    List Slot × List Nat :=
  (slots.map (detach_slot_step usbdev),
   slots.foldr
     (fun s acc =>
       match s.data with
       | none => acc
       | some sess =>
         if sess.usbdev = usbdev then sess.transfer.toList ++ acc else acc)
     [])

/-! ## Slot registry: attach

The attach paths of the two files differ in their failure cleanup, so
each is modelled separately.  A registry slot here carries the name
allocation, the session pointer stored in `terms[i].data` /
`gamepads[i].data` (an opaque allocation id), and the
registered-as-input-source flag; the world additionally tracks which
session allocations are currently live, so that a freed-but-still-
stored pointer (a dangling slot) is observable.  Allocation results
(`grub_malloc`, `grub_xasprintf`) and the initial
`grub_usb_bulk_read_background` handle are oracle inputs, as is the
presence of an interrupt IN endpoint. -/

/-- One entry of the fixed attach table: name allocation, stored
session pointer, registered flag. -/
structure RegSlot where
  name : Option Nat
  data : Option Nat
  registered : Bool
deriving DecidableEq

instance : Inhabited RegSlot := ⟨⟨none, none, false⟩⟩

/-- Registry world: the 8 slots and the set of live session
allocations. -/
structure AttachWorld where
  slots : List RegSlot
  live : List Nat
deriving DecidableEq

/-- A fresh world: 8 free slots, nothing allocated. -/
def emptyWorld : AttachWorld := ⟨List.replicate 8 default, []⟩

/-- The free-slot scan common to both attach functions: first index
whose `data` pointer is `NULL`. -/
def findFreeSlot (slots : List RegSlot) : Option Nat :=
  (List.range slots.length).find? (fun i => (slots.getD i default).data = none)

namespace UsbSnes

/-- `grub_usb_snes_attach` of `usb_snes.c` as a state transition on the
registry world.  Control flow in source order: VID/PID filter, free
slot scan, endpoint scan, `grub_malloc`, then
`terms[curnum].name = grub_xasprintf(...)` and
`terms[curnum].data = data` are both assigned *before* the name-failure
check (which frees `data` but leaves `terms[curnum].data` set), then
the initial read (whose failure path frees name and data and does clear
`terms[curnum].data`), then registration.  Best-effort control
messages have no modelled effect.  Returns the world and the C return
value (`true` = 1). -/
def grub_usb_snes_attach (w : AttachWorld) (vid pid : Nat) (endpOk : Bool)
    (malloc nameAlloc readHandle : Option Nat) : AttachWorld × Bool :=
  if ¬ is_supported_device vid pid then (w, false)
  else
    match findFreeSlot w.slots with
    | none => (w, false)
    | some curnum =>
      if ¬ endpOk then (w, false)
      else
        match malloc with
        | none => (w, false)
        | some p =>
          let w1 : AttachWorld := { w with live := w.live ++ [p] }
          let w2 : AttachWorld :=
            { w1 with slots := w1.slots.set curnum ⟨nameAlloc, some p, false⟩ }
          if nameAlloc = none then
            ({ w2 with live := w2.live.erase p }, false)
          else
            match readHandle with
            | none =>
              let w3 : AttachWorld :=
                { w2 with
                  slots := w2.slots.set curnum ⟨nameAlloc, none, false⟩ }
              ({ w3 with live := w3.live.erase p }, false)
            | some _ =>
              ({ w2 with
                 slots := w2.slots.set curnum ⟨nameAlloc, some p, true⟩ },
               true)

end UsbSnes

namespace Gamepad

/-- `grub_usb_snes_attach` of `usb_snes_gamepad.c` as a state
transition on the registry world.  Control flow in source order:
protocol filter, free slot scan, endpoint scan, `grub_malloc`, then
`gamepads[curnum].name = grub_xasprintf(...)` with its failure check
*before* `gamepads[curnum].data = data` is assigned (so that path is
clean), then the initial read: its failure path frees the name, nulls
`gamepads[curnum].name`, frees `data` — but never clears
`gamepads[curnum].data` — then registration. -/
def grub_usb_snes_attach (w : AttachWorld) (vid pid protocol : Nat)
    (endpOk : Bool) (malloc nameAlloc readHandle : Option Nat) :
    AttachWorld × Bool :=
  if ¬ attach_accepts vid pid protocol then (w, false)
  else
    match findFreeSlot w.slots with
    | none => (w, false)
    | some curnum =>
      if ¬ endpOk then (w, false)
      else
        match malloc with
        | none => (w, false)
        | some p =>
          let w1 : AttachWorld := { w with live := w.live ++ [p] }
          match nameAlloc with
          | none => ({ w1 with live := w1.live.erase p }, false)
          | some nm =>
            let w2 : AttachWorld :=
              { w1 with slots := w1.slots.set curnum ⟨some nm, some p, false⟩ }
            match readHandle with
            | none =>
              let w3 : AttachWorld :=
                { w2 with
                  slots := w2.slots.set curnum ⟨none, some p, false⟩ }
              ({ w3 with live := w3.live.erase p }, false)
            | some _ =>
              ({ w2 with
                 slots := w2.slots.set curnum ⟨some nm, some p, true⟩ },
               true)

end Gamepad

/-! ## Queue lemmas -/

theorem list_getD_set_ne {l : List Nat} {i j : Nat} (h : i ≠ j) (v d : Nat) :
    (l.set i v).getD j d = l.getD j d := by
  simp [List.getD_eq_getElem?_getD, List.getElem?_set_ne h]

theorem list_getD_set_self {l : List Nat} {i : Nat} (h : i < l.length)
    (v d : Nat) : (l.set i v).getD i d = v := by
  simp [List.getD_eq_getElem?_getD, List.getElem?_set_self h]


theorem range32_last : List.range 32 = List.range 31 ++ [31] := by decide

theorem range32_shift : List.range 32 = 0 :: (List.range 31).map Nat.succ := by
  decide

namespace Gamepad

/-- Pushing a real key into a `usb_snes_gamepad.c` queue appends it at
the tail; when the queue is full, the head (oldest) element is evicted
to make room.  The representation invariant is preserved. -/
theorem key_queue_push_spec_gamepad (d : KeyQueue) (h : QueueInv d) (k : Nat)
    (hk : k ≠ GRUB_TERM_NO_KEY) :
    QueueInv (key_queue_push d k) ∧
    queueList (key_queue_push d k) =
      if d.key_queue_size < 32 then queueList d ++ [k]
      else (queueList d).drop 1 ++ [k] := by
  obtain ⟨hlen, hb, hs⟩ := h
  unfold key_queue_push
  rw [if_neg hk]
  by_cases hfull : d.key_queue_size < 32
  · rw [if_pos hfull]
    simp only [if_pos hfull]
    constructor
    · exact ⟨by dsimp only; simpa using hlen, by dsimp only; omega,
        by dsimp only; omega⟩
    · dsimp only [queueList]
      rw [List.range_succ, List.map_append, List.map_cons, List.map_nil]
      congr 1
      · apply List.map_congr_left
        intro i hi
        rw [List.mem_range] at hi
        exact list_getD_set_ne (by omega) k 0
      · rw [list_getD_set_self (by rw [hlen]; omega) k 0]
  · rw [if_neg hfull]
    simp only [if_neg hfull]
    have hs32 : d.key_queue_size = 32 := by omega
    constructor
    · exact ⟨by dsimp only; simpa using hlen, by dsimp only; omega,
        by dsimp only; omega⟩
    · dsimp only [queueList]
      rw [hs32]
      conv_lhs => rw [range32_last]
      conv_rhs => rw [range32_shift]
      rw [List.map_append, List.map_cons, List.map_nil, List.map_cons,
        List.drop_one, List.tail_cons, List.map_map]
      congr 1
      · apply List.map_congr_left
        intro i hi
        rw [List.mem_range] at hi
        have hidx : ((d.key_queue_begin + 1) % 32 + i) % 32 =
            (d.key_queue_begin + 1 + i) % 32 := by omega
        rw [hidx]
        have hne : (d.key_queue_begin + 32) % 32 ≠
            (d.key_queue_begin + 1 + i) % 32 := by omega
        rw [list_getD_set_ne hne k 0]
        simp only [Function.comp]
        have : d.key_queue_begin + 1 + i = d.key_queue_begin + Nat.succ i := by
          omega
        rw [this]
      · have hidx : ((d.key_queue_begin + 1) % 32 + 31) % 32 =
            (d.key_queue_begin + 32) % 32 := by omega
        rw [hidx, list_getD_set_self (by rw [hlen]; omega) k 0]

end Gamepad

namespace UsbSnes

/-- `usb_snes.c` push on a full queue is a no-op: the new key is
dropped, nothing is evicted. -/
theorem key_queue_push_full (d : KeyQueue) (h : 32 ≤ d.key_queue_count)
    (k : Nat) : key_queue_push d k = d := by
  unfold key_queue_push
  rw [if_pos (Or.inl h)]

/-- `usb_snes.c` push on a non-full queue appends the key at the tail
and preserves the representation invariant. -/
theorem key_queue_push_spec_usb_snes (d : KeyQueue) (h : QueueInv d)
    (hfull : d.key_queue_count < 32) (k : Nat)
    (hk : k ≠ GRUB_TERM_NO_KEY) :
    QueueInv (key_queue_push d k) ∧
    queueList (key_queue_push d k) = queueList d ++ [k] := by
  obtain ⟨hlen, hh, ht, hc, hte⟩ := h
  unfold key_queue_push
  rw [if_neg (by push_neg; exact ⟨by omega, hk⟩)]
  constructor
  · exact ⟨by dsimp only; simpa using hlen, by dsimp only; omega,
      by dsimp only; omega, by dsimp only; omega, by dsimp only; omega⟩
  · dsimp only [queueList]
    rw [List.range_succ, List.map_append, List.map_cons, List.map_nil]
    congr 1
    · apply List.map_congr_left
      intro i hi
      rw [List.mem_range] at hi
      exact list_getD_set_ne (by omega) k 0
    · have : (d.key_queue_head + d.key_queue_count) % 32 = d.key_queue_tail := by
        omega
      rw [this, list_getD_set_self (by rw [hlen]; omega) k 0]

/-- `usb_snes.c` pop on an empty queue returns `GRUB_TERM_NO_KEY` and
leaves the queue unchanged. -/
theorem key_queue_pop_empty_usb_snes (d : KeyQueue) (h : d.key_queue_count = 0) :
    key_queue_pop d = (d, GRUB_TERM_NO_KEY) := by
  unfold key_queue_pop
  rw [if_pos (by omega)]

end UsbSnes

namespace Gamepad

/-- `usb_snes_gamepad.c` pop on an empty queue returns
`GRUB_TERM_NO_KEY` and leaves the queue unchanged. -/
theorem key_queue_pop_empty_gamepad (d : KeyQueue) (h : d.key_queue_size = 0) :
    key_queue_pop d = (d, GRUB_TERM_NO_KEY) := by
  unfold key_queue_pop
  rw [if_pos (by omega)]

/-- Push is a no-op on `GRUB_TERM_NO_KEY` (gamepad variant). -/
theorem key_queue_push_nokey_gamepad (d : KeyQueue) :
    key_queue_push d GRUB_TERM_NO_KEY = d := by
  unfold key_queue_push
  rw [if_pos rfl]

end Gamepad

namespace UsbSnes

/-- Push is a no-op on `GRUB_TERM_NO_KEY` (`usb_snes.c` variant). -/
theorem key_queue_push_nokey_usb_snes (d : KeyQueue) :
    key_queue_push d GRUB_TERM_NO_KEY = d := by
  unfold key_queue_push
  rw [if_pos (Or.inr rfl)]

end UsbSnes

/-! ## Codec helper lemmas -/

theorem mem_ite_singleton {x k : Nat} {c : Prop} [Decidable c] :
    (x ∈ if c then [k] else ([] : List Nat)) ↔ c ∧ x = k := by
  split <;> simp_all

theorem count_ite_singleton (x k : Nat) (c : Prop) [Decidable c] :
    List.count x (if c then [k] else []) = if c ∧ k = x then 1 else 0 := by
  split <;> simp_all [List.count_cons, List.count_nil]

/-! ## Claim C5 -/

/-- C5: for every 8-byte report `R`, the codec applied to two identical
reports emits no key events — every channel requires a false-to-true
transition — in both `usb_snes.c` (`parse_snes_report`) and
`usb_snes_gamepad.c` (`process_report`). -/
theorem C5_codec_identical_reports_no_events (r : Report) :
    UsbSnes.parse_snes_report r r = [] ∧ Gamepad.process_report r r = [] := by
  constructor <;>
    simp [UsbSnes.parse_snes_report, Gamepad.process_report, BTN_PRESSED,
      not_and_self_iff, and_not_self_iff]

/-! ## Claim C10 -/

/-- C10: the codec output depends only on report bytes 0, 1 and 4: two
invocations whose previous and current reports agree on those bytes
produce identical key-event sequences, in both variants.  Bytes 2–3 and
5–7 never influence which keys are queued or their order. -/
theorem C10_codec_ignores_bytes_2_3_5_7 (p c p' c' : Report)
    (h0 : p.b0 = p'.b0) (h1 : p.b1 = p'.b1) (h4 : p.b4 = p'.b4)
    (g0 : c.b0 = c'.b0) (g1 : c.b1 = c'.b1) (g4 : c.b4 = c'.b4) :
    UsbSnes.parse_snes_report p c = UsbSnes.parse_snes_report p' c' ∧
    Gamepad.process_report p c = Gamepad.process_report p' c' := by
  constructor <;>
  · simp only [UsbSnes.parse_snes_report, Gamepad.process_report]
    rw [h0, h1, h4, g0, g1, g4]

/-- Witness for C10 at concrete reports that differ exactly on bytes
2, 3, 5, 6, 7. -/
theorem C10_codec_ignores_bytes_2_3_5_7_witness :
    UsbSnes.parse_snes_report baseline_report ⟨0x00, 0x7F, 0x00, 0x00, 0x02, 0, 0, 0⟩ =
      UsbSnes.parse_snes_report baseline_report ⟨0x00, 0x7F, 0xFF, 0x55, 0x02, 9, 9, 9⟩ ∧
    Gamepad.process_report baseline_report ⟨0x00, 0x7F, 0x00, 0x00, 0x02, 0, 0, 0⟩ =
      Gamepad.process_report baseline_report ⟨0x00, 0x7F, 0xFF, 0x55, 0x02, 9, 9, 9⟩ :=
  C10_codec_ignores_bytes_2_3_5_7 baseline_report ⟨0x00, 0x7F, 0x00, 0x00, 0x02, 0, 0, 0⟩
    baseline_report ⟨0x00, 0x7F, 0xFF, 0x55, 0x02, 9, 9, 9⟩
    rfl rfl rfl rfl rfl rfl

/-! ## Claim C6 -/

/-- C6: every axis byte value classifies as exactly one of low
(`v < 0x3F`), neutral, high (`v > 0xBF`); the boundary values 0x3E /
0x3F / 0xBF / 0xC0 fall as stated; and in both codecs byte 0 drives the
Left/Right signals and byte 1 the Up/Down signals through exactly this
classification. -/
theorem C6_axis_classification :
    (∀ v : Nat,
      (axis_lo v ↔ v < 0x3F) ∧ (axis_hi v ↔ 0xBF < v) ∧
      ¬ (axis_lo v ∧ axis_hi v) ∧
      (axis_lo v ∨ axis_hi v ∨ (¬ axis_lo v ∧ ¬ axis_hi v))) ∧
    axis_lo 0x3E ∧ ¬ axis_lo 0x3F ∧ ¬ axis_hi 0xBF ∧ axis_hi 0xC0 ∧
    (∀ prev curr : Report,
      (GRUB_TERM_KEY_LEFT ∈ UsbSnes.parse_snes_report prev curr ↔
        ¬ axis_lo prev.b0 ∧ axis_lo curr.b0) ∧
      (GRUB_TERM_KEY_RIGHT ∈ UsbSnes.parse_snes_report prev curr ↔
        ¬ axis_hi prev.b0 ∧ axis_hi curr.b0) ∧
      (GRUB_TERM_KEY_UP ∈ UsbSnes.parse_snes_report prev curr ↔
        ¬ axis_lo prev.b1 ∧ axis_lo curr.b1) ∧
      (GRUB_TERM_KEY_DOWN ∈ UsbSnes.parse_snes_report prev curr ↔
        ¬ axis_hi prev.b1 ∧ axis_hi curr.b1) ∧
      (GRUB_TERM_KEY_LEFT ∈ Gamepad.process_report prev curr ↔
        ¬ axis_lo prev.b0 ∧ axis_lo curr.b0) ∧
      (GRUB_TERM_KEY_RIGHT ∈ Gamepad.process_report prev curr ↔
        ¬ axis_hi prev.b0 ∧ axis_hi curr.b0) ∧
      (GRUB_TERM_KEY_UP ∈ Gamepad.process_report prev curr ↔
        ¬ axis_lo prev.b1 ∧ axis_lo curr.b1) ∧
      (GRUB_TERM_KEY_DOWN ∈ Gamepad.process_report prev curr ↔
        ¬ axis_hi prev.b1 ∧ axis_hi curr.b1)) := by
  refine ⟨?_, by decide, by decide, by decide, by decide, ?_⟩
  · intro v
    refine ⟨?_, ?_, ?_, ?_⟩ <;>
      simp only [axis_lo, axis_hi, AXIS_CENTER, AXIS_THRESHOLD] <;> omega
  · intro prev curr
    refine ⟨?_, ?_, ?_, ?_, ?_, ?_, ?_, ?_⟩ <;>
      simp [UsbSnes.parse_snes_report, Gamepad.process_report,
        mem_ite_singleton, Gamepad.key_up, Gamepad.key_down, Gamepad.key_left,
        Gamepad.key_right, Gamepad.key_a, Gamepad.key_b, Gamepad.key_x,
        Gamepad.key_y, Gamepad.key_start, Gamepad.key_select, Gamepad.key_l,
        Gamepad.key_r, GRUB_TERM_KEY_LEFT, GRUB_TERM_KEY_UP,
        GRUB_TERM_KEY_DOWN, GRUB_TERM_KEY_RIGHT, GRUB_TERM_KEY_PPAGE,
        GRUB_TERM_KEY_NPAGE, GRUB_TERM_ESC, GRUB_TERM_EXTENDED, CHAR_CR,
        CHAR_e, CHAR_c]

/-! ## Claim C4 -/

/-- C4 counterexample: the claim's static table does not hold of
`usb_snes_gamepad.c`.  From the baseline, a rising B button (byte 4 bit
2) yields Escape, not Enter; and A and B rising simultaneously yield
the two events Enter then Escape, not a single merged Enter. -/
theorem C4_counterexample_gamepad_b_is_escape :
    Gamepad.process_report baseline_report ⟨0x7F, 0x7F, 0x7F, 0x7F, 0x04, 0, 0, 0⟩ =
      [GRUB_TERM_ESC] ∧
    GRUB_TERM_ESC ≠ CHAR_CR ∧
    Gamepad.process_report baseline_report ⟨0x7F, 0x7F, 0x7F, 0x7F, 0x06, 0, 0, 0⟩ =
      [CHAR_CR, GRUB_TERM_ESC] := by
  refine ⟨by decide, by decide, by decide⟩

/-- C4 (amended): `usb_snes.c` maps rising button edges by the claimed
table — A-or-B merge to exactly one Enter, Start to Enter, Select to
Escape, X to the edit character, Y to the command character, L to
PageUp, R to PageDown — stated as exact event counts for every
previous/current pair, plus the single-edge outputs from baseline.
`usb_snes_gamepad.c` instead maps A to Enter, B and Y to Escape, Select
to the edit character, X to the command character, Start to Enter, L to
PageUp, R to PageDown, and emits separate events for A and B. -/
theorem C4_button_mapping_amended :
    (∀ prev curr : Report,
      List.count CHAR_CR (UsbSnes.parse_snes_report prev curr) =
        (if BTN_PRESSED prev.b4 curr.b4 0x02 ∨ BTN_PRESSED prev.b4 curr.b4 0x04
          then 1 else 0) +
        (if BTN_PRESSED prev.b4 curr.b4 0x80 then 1 else 0) ∧
      List.count GRUB_TERM_ESC (UsbSnes.parse_snes_report prev curr) =
        (if BTN_PRESSED prev.b4 curr.b4 0x40 then 1 else 0) ∧
      List.count CHAR_e (UsbSnes.parse_snes_report prev curr) =
        (if BTN_PRESSED prev.b4 curr.b4 0x01 then 1 else 0) ∧
      List.count CHAR_c (UsbSnes.parse_snes_report prev curr) =
        (if BTN_PRESSED prev.b4 curr.b4 0x08 then 1 else 0) ∧
      List.count GRUB_TERM_KEY_PPAGE (UsbSnes.parse_snes_report prev curr) =
        (if BTN_PRESSED prev.b4 curr.b4 0x10 then 1 else 0) ∧
      List.count GRUB_TERM_KEY_NPAGE (UsbSnes.parse_snes_report prev curr) =
        (if BTN_PRESSED prev.b4 curr.b4 0x20 then 1 else 0)) ∧
    (∀ prev curr : Report,
      List.count CHAR_CR (Gamepad.process_report prev curr) =
        (if BTN_PRESSED prev.b4 curr.b4 Gamepad.BTN_A then 1 else 0) +
        (if BTN_PRESSED prev.b4 curr.b4 Gamepad.BTN_START then 1 else 0) ∧
      List.count GRUB_TERM_ESC (Gamepad.process_report prev curr) =
        (if BTN_PRESSED prev.b4 curr.b4 Gamepad.BTN_B then 1 else 0) +
        (if BTN_PRESSED prev.b4 curr.b4 Gamepad.BTN_Y then 1 else 0) ∧
      List.count CHAR_e (Gamepad.process_report prev curr) =
        (if BTN_PRESSED prev.b4 curr.b4 Gamepad.BTN_SELECT then 1 else 0) ∧
      List.count CHAR_c (Gamepad.process_report prev curr) =
        (if BTN_PRESSED prev.b4 curr.b4 Gamepad.BTN_X then 1 else 0) ∧
      List.count GRUB_TERM_KEY_PPAGE (Gamepad.process_report prev curr) =
        (if BTN_PRESSED prev.b4 curr.b4 Gamepad.BTN_L then 1 else 0) ∧
      List.count GRUB_TERM_KEY_NPAGE (Gamepad.process_report prev curr) =
        (if BTN_PRESSED prev.b4 curr.b4 Gamepad.BTN_R then 1 else 0)) ∧
    UsbSnes.parse_snes_report baseline_report ⟨0x7F, 0x7F, 0x7F, 0x7F, 0x02, 0, 0, 0⟩ = [CHAR_CR] ∧
    UsbSnes.parse_snes_report baseline_report ⟨0x7F, 0x7F, 0x7F, 0x7F, 0x04, 0, 0, 0⟩ = [CHAR_CR] ∧
    UsbSnes.parse_snes_report baseline_report ⟨0x7F, 0x7F, 0x7F, 0x7F, 0x06, 0, 0, 0⟩ = [CHAR_CR] ∧
    UsbSnes.parse_snes_report baseline_report ⟨0x7F, 0x7F, 0x7F, 0x7F, 0x80, 0, 0, 0⟩ = [CHAR_CR] ∧
    UsbSnes.parse_snes_report baseline_report ⟨0x7F, 0x7F, 0x7F, 0x7F, 0x40, 0, 0, 0⟩ = [GRUB_TERM_ESC] ∧
    UsbSnes.parse_snes_report baseline_report ⟨0x7F, 0x7F, 0x7F, 0x7F, 0x01, 0, 0, 0⟩ = [CHAR_e] ∧
    UsbSnes.parse_snes_report baseline_report ⟨0x7F, 0x7F, 0x7F, 0x7F, 0x08, 0, 0, 0⟩ = [CHAR_c] ∧
    UsbSnes.parse_snes_report baseline_report ⟨0x7F, 0x7F, 0x7F, 0x7F, 0x10, 0, 0, 0⟩ = [GRUB_TERM_KEY_PPAGE] ∧
    UsbSnes.parse_snes_report baseline_report ⟨0x7F, 0x7F, 0x7F, 0x7F, 0x20, 0, 0, 0⟩ = [GRUB_TERM_KEY_NPAGE] := by
  refine ⟨?_, ?_, by decide, by decide, by decide, by decide, by decide,
    by decide, by decide, by decide, by decide⟩ <;>
  · intro prev curr
    refine ⟨?_, ?_, ?_, ?_, ?_, ?_⟩ <;>
      simp [UsbSnes.parse_snes_report, Gamepad.process_report,
        List.count_append, count_ite_singleton, Gamepad.key_up,
        Gamepad.key_down, Gamepad.key_left, Gamepad.key_right, Gamepad.key_a,
        Gamepad.key_b, Gamepad.key_x, Gamepad.key_y, Gamepad.key_start,
        Gamepad.key_select, Gamepad.key_l, Gamepad.key_r, Gamepad.BTN_X,
        Gamepad.BTN_A, Gamepad.BTN_B, Gamepad.BTN_Y, Gamepad.BTN_L,
        Gamepad.BTN_R, Gamepad.BTN_SELECT, Gamepad.BTN_START,
        GRUB_TERM_KEY_LEFT, GRUB_TERM_KEY_UP, GRUB_TERM_KEY_DOWN,
        GRUB_TERM_KEY_RIGHT, GRUB_TERM_KEY_PPAGE, GRUB_TERM_KEY_NPAGE,
        GRUB_TERM_ESC, GRUB_TERM_EXTENDED, CHAR_CR, CHAR_e, CHAR_c]

/-! ## Claim C1 -/

/-- C1 counterexample: the `usb_snes.c` ring queue does not evict the
oldest element — a push onto a full queue rejects (drops) the new key.
After pushing 1..32 into the empty queue the queue is full and holds
1..32; pushing the non-`NoKey` key 33 changes nothing; and pushing
1..40 leaves the *first* 32 keys, not the last 32. -/
theorem C1_counterexample_usb_snes_full_push_rejects :
    UsbSnes.key_queue_push
        (UsbSnes.key_queue_push_all UsbSnes.emptyQueue (List.range' 1 32)) 33
      = UsbSnes.key_queue_push_all UsbSnes.emptyQueue (List.range' 1 32) ∧
    (33 : Nat) ≠ GRUB_TERM_NO_KEY ∧
    UsbSnes.queueList (UsbSnes.key_queue_push_all UsbSnes.emptyQueue
      (List.range' 1 32)) = List.range' 1 32 ∧
    UsbSnes.queueList (UsbSnes.key_queue_push_all UsbSnes.emptyQueue
      (List.range' 1 40)) = List.range' 1 32 ∧
    List.range' 1 32 ≠ List.range' 9 32 := by
  refine ⟨by decide, by decide, by decide, by decide, by decide⟩

/-- C1 (amended): push is a no-op on `NoKey` and pop on an empty queue
returns `NoKey`, in both variants.  The `usb_snes_gamepad.c` push
inserts at the tail and, at capacity, evicts the head to make room
(never rejecting a key), so pushing the 40 distinct keys 1..40 into the
empty queue leaves exactly the last 32 in FIFO order.  The `usb_snes.c`
push inserts at the tail only while the queue is not full and drops the
new key at capacity, so the same 40 pushes there leave the first 32. -/
theorem C1_ring_queue_amended :
    (∀ d, UsbSnes.key_queue_push d GRUB_TERM_NO_KEY = d) ∧
    (∀ d, Gamepad.key_queue_push d GRUB_TERM_NO_KEY = d) ∧
    (∀ d : UsbSnes.KeyQueue, d.key_queue_count = 0 →
      UsbSnes.key_queue_pop d = (d, GRUB_TERM_NO_KEY)) ∧
    (∀ d : Gamepad.KeyQueue, d.key_queue_size = 0 →
      Gamepad.key_queue_pop d = (d, GRUB_TERM_NO_KEY)) ∧
    (∀ (d : Gamepad.KeyQueue) (k : Nat), Gamepad.QueueInv d →
      k ≠ GRUB_TERM_NO_KEY →
      Gamepad.QueueInv (Gamepad.key_queue_push d k) ∧
      Gamepad.queueList (Gamepad.key_queue_push d k) =
        if d.key_queue_size < 32 then Gamepad.queueList d ++ [k]
        else (Gamepad.queueList d).drop 1 ++ [k]) ∧
    (∀ (d : UsbSnes.KeyQueue) (k : Nat), 32 ≤ d.key_queue_count →
      UsbSnes.key_queue_push d k = d) ∧
    (∀ (d : UsbSnes.KeyQueue) (k : Nat), UsbSnes.QueueInv d →
      d.key_queue_count < 32 → k ≠ GRUB_TERM_NO_KEY →
      UsbSnes.QueueInv (UsbSnes.key_queue_push d k) ∧
      UsbSnes.queueList (UsbSnes.key_queue_push d k) =
        UsbSnes.queueList d ++ [k]) ∧
    Gamepad.queueList (Gamepad.key_queue_push_all Gamepad.emptyQueue
      (List.range' 1 40)) = List.range' 9 32 ∧
    UsbSnes.queueList (UsbSnes.key_queue_push_all UsbSnes.emptyQueue
      (List.range' 1 40)) = List.range' 1 32 :=
  ⟨UsbSnes.key_queue_push_nokey_usb_snes, Gamepad.key_queue_push_nokey_gamepad,
   UsbSnes.key_queue_pop_empty_usb_snes, Gamepad.key_queue_pop_empty_gamepad,
   fun d k h hk => Gamepad.key_queue_push_spec_gamepad d h k hk,
   fun d k h => UsbSnes.key_queue_push_full d h k,
   fun d k h hlt hk => UsbSnes.key_queue_push_spec_usb_snes d h hlt k hk,
   by decide, by decide⟩

/-- Witness for C1 at concrete queues: a push of key 7 onto the empty
gamepad queue appends it, and pop on the empty `usb_snes.c` queue
returns `NoKey`. -/
theorem C1_ring_queue_amended_witness :
    Gamepad.queueList (Gamepad.key_queue_push Gamepad.emptyQueue 7) =
      Gamepad.queueList Gamepad.emptyQueue ++ [7] ∧
    UsbSnes.key_queue_pop UsbSnes.emptyQueue =
      (UsbSnes.emptyQueue, GRUB_TERM_NO_KEY) := by
  constructor
  · have h := C1_ring_queue_amended.2.2.2.2.1 Gamepad.emptyQueue 7
      ⟨by decide, by decide, by decide⟩ (by decide)
    have h2 := h.2
    rw [if_pos (by decide : Gamepad.emptyQueue.key_queue_size < 32)] at h2
    exact h2
  · exact C1_ring_queue_amended.2.2.1 UsbSnes.emptyQueue (by decide)

/-! ## Claim C2 -/

/-- C2 counterexample: the claimed error-handling rule fails on both
variants.  In `usb_snes_gamepad.c` a poll whose read completed with an
error still copies the current buffer into `prev_report`, disturbing
the baseline; in `usb_snes.c` a poll whose read completed successfully
with only 3 of the expected 8 bytes still runs the codec (here emitting
Enter for a rising A button) and copies current into previous. -/
theorem C2_counterexample_error_and_short_read :
    (Gamepad.grub_usb_snes_getkey
      ⟨⟨0x00, 0x7F, 0x7F, 0x7F, 0, 0, 0, 0⟩, baseline_report, some 1,
        Gamepad.emptyQueue⟩ UsbErr.ERR 0 (some 2)).1.prev_report =
      ⟨0x00, 0x7F, 0x7F, 0x7F, 0, 0, 0, 0⟩ ∧
    (⟨0x00, 0x7F, 0x7F, 0x7F, 0, 0, 0, 0⟩ : Report) ≠ baseline_report ∧
    (UsbSnes.grub_usb_snes_getkey
      ⟨⟨0x7F, 0x7F, 0x7F, 0x7F, 0x02, 0, 0, 0⟩, baseline_report, false, some 1,
        UsbSnes.emptyQueue⟩ UsbErr.NONE 3 (some 2)).2 = CHAR_CR ∧
    CHAR_CR ≠ GRUB_TERM_NO_KEY ∧
    (UsbSnes.grub_usb_snes_getkey
      ⟨⟨0x7F, 0x7F, 0x7F, 0x7F, 0x02, 0, 0, 0⟩, baseline_report, false, some 1,
        UsbSnes.emptyQueue⟩ UsbErr.NONE 3 (some 2)).1.prev_report =
      ⟨0x7F, 0x7F, 0x7F, 0x7F, 0x02, 0, 0, 0⟩ := by
  refine ⟨by decide, by decide, by decide, by decide, by decide⟩

/-- C2 (amended): on an error completion `usb_snes.c` does satisfy the
rule — codec skipped, `prev_report` untouched, queue untouched, read
re-armed — but it accepts any successful completion with at least one
byte (short reads included) as a valid report, running the codec and
copying current into previous.  `usb_snes_gamepad.c` runs the codec
exactly on 8-byte successes, yet copies current into previous and
re-arms on *every* completion, errors and short reads included; in
both variants a completed poll always attempts the re-arm. -/
theorem C2_poll_error_handling_amended :
    (∀ (d : UsbSnes.DeviceData) (actual t : Nat),
      d.dead = false → d.queue.key_queue_count = 0 →
      UsbSnes.grub_usb_snes_getkey d UsbErr.ERR actual (some t) =
        ({ d with transfer := some t }, GRUB_TERM_NO_KEY)) ∧
    (∀ (d : UsbSnes.DeviceData) (actual t : Nat),
      d.dead = false → d.queue.key_queue_count = 0 → 1 ≤ actual →
      (UsbSnes.grub_usb_snes_getkey d UsbErr.NONE actual (some t)).1.prev_report
        = d.report ∧
      (UsbSnes.grub_usb_snes_getkey d UsbErr.NONE actual (some t)).1.queue =
        (UsbSnes.key_queue_pop (UsbSnes.key_queue_push_all d.queue
          (UsbSnes.parse_snes_report d.prev_report d.report))).1 ∧
      (UsbSnes.grub_usb_snes_getkey d UsbErr.NONE actual (some t)).1.transfer
        = some t) ∧
    (∀ (d : Gamepad.DeviceData) (err : UsbErr) (actual : Nat)
       (rearm : Option Nat), err ≠ UsbErr.WAIT →
      ¬ (err = UsbErr.NONE ∧ actual = 8) →
      (Gamepad.grub_usb_snes_getkey d err actual rearm).1.prev_report
        = d.report ∧
      (Gamepad.grub_usb_snes_getkey d err actual rearm).1.queue =
        (Gamepad.key_queue_pop d.queue).1 ∧
      (Gamepad.grub_usb_snes_getkey d err actual rearm).1.transfer
        = rearm ∧
      (Gamepad.grub_usb_snes_getkey d err actual rearm).2 =
        (Gamepad.key_queue_pop d.queue).2) ∧
    (∀ (d : Gamepad.DeviceData) (rearm : Option Nat),
      (Gamepad.grub_usb_snes_getkey d UsbErr.NONE 8 rearm).1.prev_report
        = d.report ∧
      (Gamepad.grub_usb_snes_getkey d UsbErr.NONE 8 rearm).1.queue =
        (Gamepad.key_queue_pop (Gamepad.key_queue_push_all d.queue
          (Gamepad.process_report d.prev_report d.report))).1 ∧
      (Gamepad.grub_usb_snes_getkey d UsbErr.NONE 8 rearm).1.transfer
        = rearm) := by
  refine ⟨?_, ?_, ?_, ?_⟩
  · intro d actual t h1 h2
    unfold UsbSnes.grub_usb_snes_getkey
    rw [if_neg (by simp [h1]), if_neg (by omega), if_neg (by simp)]
    simp [UsbSnes.key_queue_pop, h2]
  · intro d actual t h1 h2 h3
    unfold UsbSnes.grub_usb_snes_getkey
    rw [if_neg (by simp [h1]), if_neg (by omega), if_neg (by simp)]
    simp [h3]
  · intro d err actual rearm h1 h2
    unfold Gamepad.grub_usb_snes_getkey
    simp [h1, h2]
  · intro d rearm
    unfold Gamepad.grub_usb_snes_getkey
    simp

/-- Witness for C2 at concrete live sessions with empty queues: an
error completion in `usb_snes.c`, a short-read (3-byte) success in the
gamepad variant, and an 8-byte success in the gamepad variant. -/
theorem C2_poll_error_handling_amended_witness :
    UsbSnes.grub_usb_snes_getkey
        ⟨baseline_report, baseline_report, false, some 1, UsbSnes.emptyQueue⟩
        UsbErr.ERR 0 (some 2) =
      ({ (⟨baseline_report, baseline_report, false, some 1,
          UsbSnes.emptyQueue⟩ : UsbSnes.DeviceData) with transfer := some 2 },
       GRUB_TERM_NO_KEY) ∧
    (Gamepad.grub_usb_snes_getkey
        ⟨baseline_report, baseline_report, some 1, Gamepad.emptyQueue⟩
        UsbErr.NONE 3 (some 2)).1.transfer = some 2 ∧
    (Gamepad.grub_usb_snes_getkey
        ⟨baseline_report, baseline_report, some 1, Gamepad.emptyQueue⟩
        UsbErr.NONE 8 (some 2)).1.transfer = some 2 :=
  ⟨C2_poll_error_handling_amended.1
      ⟨baseline_report, baseline_report, false, some 1, UsbSnes.emptyQueue⟩
      0 2 rfl rfl,
   (C2_poll_error_handling_amended.2.2.1
      ⟨baseline_report, baseline_report, some 1, Gamepad.emptyQueue⟩
      UsbErr.NONE 3 (some 2) (by decide) (by decide)).2.2.1,
   (C2_poll_error_handling_amended.2.2.2
      ⟨baseline_report, baseline_report, some 1, Gamepad.emptyQueue⟩
      (some 2)).2.2⟩

/-! ## Claim C3 -/

/-- C3 counterexample: `usb_snes_gamepad.c` has no Dead state.  In a
session whose read completed with a rising A button but whose re-arm
fails, the poll returns Enter rather than `NoKey`; and a later poll of
the same session (after the hardware deposits a report with a rising B
button) still checks the completed transfer, emits Escape, and starts
a new read — the session keeps producing events. -/
theorem C3_counterexample_gamepad_keeps_running :
    (Gamepad.grub_usb_snes_getkey
      ⟨⟨0x7F, 0x7F, 0x7F, 0x7F, 0x02, 0, 0, 0⟩, baseline_report, some 5,
        Gamepad.emptyQueue⟩ UsbErr.NONE 8 none).2 = CHAR_CR ∧
    CHAR_CR ≠ GRUB_TERM_NO_KEY ∧
    (Gamepad.grub_usb_snes_getkey
      { (Gamepad.grub_usb_snes_getkey
          ⟨⟨0x7F, 0x7F, 0x7F, 0x7F, 0x02, 0, 0, 0⟩, baseline_report, some 5,
            Gamepad.emptyQueue⟩ UsbErr.NONE 8 none).1 with
          report := ⟨0x7F, 0x7F, 0x7F, 0x7F, 0x06, 0, 0, 0⟩ }
      UsbErr.NONE 8 (some 6)).2 = GRUB_TERM_ESC ∧
    GRUB_TERM_ESC ≠ GRUB_TERM_NO_KEY ∧
    (Gamepad.grub_usb_snes_getkey
      { (Gamepad.grub_usb_snes_getkey
          ⟨⟨0x7F, 0x7F, 0x7F, 0x7F, 0x02, 0, 0, 0⟩, baseline_report, some 5,
            Gamepad.emptyQueue⟩ UsbErr.NONE 8 none).1 with
          report := ⟨0x7F, 0x7F, 0x7F, 0x7F, 0x06, 0, 0, 0⟩ }
      UsbErr.NONE 8 (some 6)).1.transfer = some 6 := by
  refine ⟨by decide, by decide, by decide, by decide, by decide⟩

/-- C3 (amended): in `usb_snes.c` a poll in which the re-arm fails
marks the session dead, nulls the transfer, and returns `NoKey`; and
Dead is terminal — a dead session's poll ignores the transfer-check
and re-arm oracles entirely (so it never checks a transfer nor starts
a read), leaves the session unchanged, and returns `NoKey`.
`usb_snes_gamepad.c` has no dead state: from any session — including
one whose re-arm failed and whose transfer handle is `NULL` — a poll
seeing a successful 8-byte completion still runs the codec and starts
a new read. -/
theorem C3_dead_session_amended :
    (∀ (d : UsbSnes.DeviceData) (err : UsbErr) (actual : Nat),
      d.dead = false → d.queue.key_queue_count = 0 → err ≠ UsbErr.WAIT →
      (UsbSnes.grub_usb_snes_getkey d err actual none).1.dead = true ∧
      (UsbSnes.grub_usb_snes_getkey d err actual none).1.transfer = none ∧
      (UsbSnes.grub_usb_snes_getkey d err actual none).2 = GRUB_TERM_NO_KEY) ∧
    (∀ (d : UsbSnes.DeviceData) (err : UsbErr) (actual : Nat)
       (rearm : Option Nat), d.dead = true →
      UsbSnes.grub_usb_snes_getkey d err actual rearm =
        (d, GRUB_TERM_NO_KEY)) ∧
    (∀ (d : Gamepad.DeviceData) (t : Nat), d.transfer = none →
      (Gamepad.grub_usb_snes_getkey d UsbErr.NONE 8 (some t)).1.transfer
        = some t ∧
      (Gamepad.grub_usb_snes_getkey d UsbErr.NONE 8 (some t)).1.queue =
        (Gamepad.key_queue_pop (Gamepad.key_queue_push_all d.queue
          (Gamepad.process_report d.prev_report d.report))).1) := by
  refine ⟨?_, ?_, ?_⟩
  · intro d err actual h1 h2 h3
    unfold UsbSnes.grub_usb_snes_getkey
    rw [if_neg (by simp [h1]), if_neg (by omega), if_neg h3]
    split <;> simp
  · intro d err actual rearm h
    unfold UsbSnes.grub_usb_snes_getkey
    rw [if_pos h]
  · intro d t _
    unfold Gamepad.grub_usb_snes_getkey
    simp

/-- Witness for C3: a live `usb_snes.c` session whose re-arm fails
becomes dead and returns `NoKey`; a dead session is inert; a gamepad
session with a `NULL` transfer still re-arms. -/
theorem C3_dead_session_amended_witness :
    (UsbSnes.grub_usb_snes_getkey
      ⟨baseline_report, baseline_report, false, some 1, UsbSnes.emptyQueue⟩
      UsbErr.ERR 0 none).1.dead = true ∧
    UsbSnes.grub_usb_snes_getkey
        ⟨baseline_report, baseline_report, true, none, UsbSnes.emptyQueue⟩
        UsbErr.NONE 8 (some 3) =
      (⟨baseline_report, baseline_report, true, none, UsbSnes.emptyQueue⟩,
       GRUB_TERM_NO_KEY) ∧
    (Gamepad.grub_usb_snes_getkey
      ⟨baseline_report, baseline_report, none, Gamepad.emptyQueue⟩
      UsbErr.NONE 8 (some 4)).1.transfer = some 4 :=
  ⟨(C3_dead_session_amended.1
      ⟨baseline_report, baseline_report, false, some 1, UsbSnes.emptyQueue⟩
      UsbErr.ERR 0 rfl rfl (by decide)).1,
   C3_dead_session_amended.2.1
      ⟨baseline_report, baseline_report, true, none, UsbSnes.emptyQueue⟩
      UsbErr.NONE 8 (some 3) rfl,
   (C3_dead_session_amended.2.2
      ⟨baseline_report, baseline_report, none, Gamepad.emptyQueue⟩
      4 rfl).1⟩

/-! ## Claim C7 -/

/-- C7 counterexample: `usb_snes.c` never consults the interface
protocol byte.  A device on its VID/PID allow-list that is classified
as a keyboard-protocol device (protocol byte 1) is accepted by its
attach filter, while the gamepad variant rejects the same device. -/
theorem C7_counterexample_usb_snes_ignores_protocol :
    UsbSnes.attach_accepts 0x0810 0xe501 1 = true ∧
    Gamepad.attach_accepts 0x0810 0xe501 1 = false := by
  refine ⟨by decide, by decide⟩

/-- C7 (amended): the device-identity filters of the two variants.
`usb_snes_gamepad.c` (with its compiled-in accept-any-HID policy)
accepts a device exactly when its protocol byte is not 1, regardless of
the allow-list; `usb_snes.c` accepts exactly the VID/PID pairs on its
`supported_devices` allow-list, regardless of the protocol byte. -/
theorem C7_attach_filter_amended :
    (∀ vid pid protocol : Nat,
      Gamepad.attach_accepts vid pid protocol = true ↔ protocol ≠ 1) ∧
    (∀ vid pid protocol : Nat,
      UsbSnes.attach_accepts vid pid protocol = true ↔
        (vid, pid) ∈ UsbSnes.supported_devices) := by
  constructor
  · intro vid pid protocol
    simp [Gamepad.attach_accepts, Gamepad.ACCEPT_ANY_HID]
  · intro vid pid protocol
    simp only [UsbSnes.attach_accepts, UsbSnes.is_supported_device,
      List.any_eq_true, Bool.and_eq_true, beq_iff_eq]
    constructor
    · rintro ⟨⟨a, b⟩, hm, rfl, rfl⟩
      exact hm
    · intro hm
      exact ⟨(vid, pid), hm, rfl, rfl⟩

/-! ## Claim C8 -/

/-- C8: both attach functions have a rejection path that leaves partial
state behind, contradicting the documented contract.  In
`usb_snes_gamepad.c`, when everything up to the initial background read
succeeds but the read fails to start, the cleanup frees the session but
never clears `gamepads[curnum].data`: attach returns failure with slot 0
still marked occupied by the freed allocation (a dangling pointer the
detach loop would later dereference).  `usb_snes.c` has the mirror-image
slip in its name-allocation-failure path. -/
theorem C8_attach_failure_leaves_dangling_slot :
    ((Gamepad.grub_usb_snes_attach emptyWorld 0x0810 0xe501 0 true
        (some 1) (some 2) none).2 = false ∧
     ((Gamepad.grub_usb_snes_attach emptyWorld 0x0810 0xe501 0 true
        (some 1) (some 2) none).1.slots.getD 0 default).data = some 1 ∧
     1 ∉ (Gamepad.grub_usb_snes_attach emptyWorld 0x0810 0xe501 0 true
        (some 1) (some 2) none).1.live) ∧
    ((UsbSnes.grub_usb_snes_attach emptyWorld 0x0810 0xe501 true
        (some 1) none (some 3)).2 = false ∧
     ((UsbSnes.grub_usb_snes_attach emptyWorld 0x0810 0xe501 true
        (some 1) none (some 3)).1.slots.getD 0 default).data = some 1 ∧
     1 ∉ (UsbSnes.grub_usb_snes_attach emptyWorld 0x0810 0xe501 true
        (some 1) none (some 3)).1.live) := by
  refine ⟨⟨by decide, by decide, by decide⟩, ⟨by decide, by decide, by decide⟩⟩

/-! ## Claim C9 -/

theorem list_getD_map (f : Slot → Slot) (l : List Slot) (i : Nat)
    (h : i < l.length) :
    (l.map f).getD i default = f (l.getD i default) := by
  simp [List.getD_eq_getElem?_getD, List.getElem?_map,
    List.getElem?_eq_getElem h]

theorem detach_frees_matching_slot (usbdev : Nat) (slots : List Slot)
    (i : Nat) (sess : SlotSession) (h : i < slots.length)
    (hd : (slots.getD i default).data = some sess)
    (hu : sess.usbdev = usbdev) :
    (grub_usb_snes_detach usbdev slots).1.getD i default =
      ⟨none, none, false⟩ := by
  unfold grub_usb_snes_detach
  rw [list_getD_map _ _ _ h]
  unfold detach_slot_step
  rw [hd]
  simp [hu]

theorem detach_skips_other_slots (usbdev : Nat) (slots : List Slot)
    (i : Nat) (h : i < slots.length)
    (hno : ∀ sess, (slots.getD i default).data = some sess →
      sess.usbdev ≠ usbdev) :
    (grub_usb_snes_detach usbdev slots).1.getD i default =
      slots.getD i default := by
  unfold grub_usb_snes_detach
  rw [list_getD_map _ _ _ h]
  unfold detach_slot_step
  cases hd : (slots.getD i default).data with
  | none => rfl
  | some sess => simp [hno sess hd]

theorem detach_slot_step_no_match (usbdev : Nat) (s : Slot)
    (hs : ∀ sess, s.data = some sess → sess.usbdev ≠ usbdev) :
    detach_slot_step usbdev s = s := by
  unfold detach_slot_step
  cases hd : s.data with
  | none => rfl
  | some sess => simp [hs sess hd]

theorem detach_no_match_noop (usbdev : Nat) (slots : List Slot)
    (h : ∀ s ∈ slots, ∀ sess, s.data = some sess → sess.usbdev ≠ usbdev) :
    grub_usb_snes_detach usbdev slots = (slots, []) := by
  unfold grub_usb_snes_detach
  induction slots with
  | nil => rfl
  | cons s rest ih =>
    have hs := h s (List.mem_cons_self s rest)
    have hrest : ∀ x ∈ rest, ∀ sess, x.data = some sess →
        sess.usbdev ≠ usbdev :=
      fun x hx => h x (List.mem_cons_of_mem s hx)
    have ih2 := ih hrest
    simp only [Prod.mk.injEq] at ih2
    simp only [List.map_cons, List.foldr_cons, Prod.mk.injEq]
    refine ⟨?_, ?_⟩
    · rw [detach_slot_step_no_match usbdev s hs, ih2.1]
    · cases hd : s.data with
      | none => exact ih2.2
      | some sess => simp [hs sess hd, ih2.2]

theorem detach_cancels_matching (usbdev : Nat) (slots : List Slot)
    (s : Slot) (hmem : s ∈ slots) (sess : SlotSession)
    (hd : s.data = some sess) (hu : sess.usbdev = usbdev) (t : Nat)
    (ht : sess.transfer = some t) :
    t ∈ (grub_usb_snes_detach usbdev slots).2 := by
  induction slots with
  | nil => cases hmem
  | cons s' rest ih =>
    rcases List.mem_cons.mp hmem with heq | hmem2
    · subst heq
      simp [grub_usb_snes_detach, hd, hu, ht]
    · have hin := ih hmem2
      simp only [grub_usb_snes_detach] at hin ⊢
      simp only [List.foldr_cons]
      cases hd' : s'.data with
      | none => exact hin
      | some sess' =>
        by_cases hu' : sess'.usbdev = usbdev
        · simp [hu', hin]
        · simp [hu', hin]

theorem detach_idempotent (usbdev : Nat) (slots : List Slot) :
    grub_usb_snes_detach usbdev (grub_usb_snes_detach usbdev slots).1 =
      ((grub_usb_snes_detach usbdev slots).1, []) := by
  apply detach_no_match_noop
  intro s' hs' sess hd
  rw [grub_usb_snes_detach] at hs'
  rcases List.mem_map.mp hs' with ⟨s, _, rfl⟩
  unfold detach_slot_step at hd
  cases hds : s.data with
  | none => simp [hds] at hd
  | some sess0 =>
    by_cases h0 : sess0.usbdev = usbdev
    · simp [hds, h0] at hd
    · simp [hds, h0] at hd
      subst hd
      exact h0

/-- C9: the detach loop (identical in both files) frees every slot
whose stored device handle equals the detaching handle — clearing its
name, session, and input-source registration — and cancels that
session's outstanding transfer; slots with a different (or no) handle
are untouched; when no slot matches, detach changes no state and
cancels nothing; and detach is idempotent. -/
theorem C9_detach_matching_slots (usbdev : Nat) (slots : List Slot) :
    (∀ (i : Nat) (sess : SlotSession), i < slots.length →
      (slots.getD i default).data = some sess → sess.usbdev = usbdev →
      (grub_usb_snes_detach usbdev slots).1.getD i default =
        ⟨none, none, false⟩) ∧
    (∀ i : Nat, i < slots.length →
      (∀ sess, (slots.getD i default).data = some sess →
        sess.usbdev ≠ usbdev) →
      (grub_usb_snes_detach usbdev slots).1.getD i default =
        slots.getD i default) ∧
    (∀ (s : Slot) (sess : SlotSession) (t : Nat), s ∈ slots →
      s.data = some sess → sess.usbdev = usbdev → sess.transfer = some t →
      t ∈ (grub_usb_snes_detach usbdev slots).2) ∧
    ((∀ s ∈ slots, ∀ sess, s.data = some sess → sess.usbdev ≠ usbdev) →
      grub_usb_snes_detach usbdev slots = (slots, [])) ∧
    grub_usb_snes_detach usbdev (grub_usb_snes_detach usbdev slots).1 =
      ((grub_usb_snes_detach usbdev slots).1, []) :=
  ⟨fun i sess h hd hu => detach_frees_matching_slot usbdev slots i sess h hd hu,
   fun i h hno => detach_skips_other_slots usbdev slots i h hno,
   fun s sess t hmem hd hu ht =>
     detach_cancels_matching usbdev slots s hmem sess hd hu t ht,
   fun h => detach_no_match_noop usbdev slots h,
   detach_idempotent usbdev slots⟩

/-- Witness for C9: detaching handle 7 from a one-slot table whose
session stores handle 7 frees the slot; detaching from an empty table
is a no-op. -/
theorem C9_detach_matching_slots_witness :
    (grub_usb_snes_detach 7 [⟨some 1, some ⟨7, some 4⟩, true⟩]).1.getD 0
        default = ⟨none, none, false⟩ ∧
    grub_usb_snes_detach 9 ([] : List Slot) = ([], []) :=
  ⟨(C9_detach_matching_slots 7 [⟨some 1, some ⟨7, some 4⟩, true⟩]).1 0
      ⟨7, some 4⟩ (by decide) rfl rfl,
   (C9_detach_matching_slots 9 []).2.2.2.1 (by simp)⟩

/-! ## Additional witnesses -/

/-- Witness for C4 at a concrete report pair: A and B rising together
from baseline give exactly one Enter in `usb_snes.c`. -/
theorem C4_button_mapping_amended_witness :
    List.count CHAR_CR (UsbSnes.parse_snes_report baseline_report
        ⟨0x7F, 0x7F, 0x7F, 0x7F, 0x06, 0, 0, 0⟩) =
      (if BTN_PRESSED baseline_report.b4
          (⟨0x7F, 0x7F, 0x7F, 0x7F, 0x06, 0, 0, 0⟩ : Report).b4 0x02 ∨
        BTN_PRESSED baseline_report.b4
          (⟨0x7F, 0x7F, 0x7F, 0x7F, 0x06, 0, 0, 0⟩ : Report).b4 0x04
        then 1 else 0) +
      (if BTN_PRESSED baseline_report.b4
          (⟨0x7F, 0x7F, 0x7F, 0x7F, 0x06, 0, 0, 0⟩ : Report).b4 0x80
        then 1 else 0) :=
  (C4_button_mapping_amended.1 baseline_report
    ⟨0x7F, 0x7F, 0x7F, 0x7F, 0x06, 0, 0, 0⟩).1

/-- Witness for C5 at the baseline report. -/
theorem C5_codec_identical_reports_no_events_witness :
    UsbSnes.parse_snes_report baseline_report baseline_report = [] ∧
    Gamepad.process_report baseline_report baseline_report = [] :=
  C5_codec_identical_reports_no_events baseline_report

/-- Witness for C6 at the boundary value 0x3E. -/
theorem C6_axis_classification_witness : axis_lo 0x3E :=
  C6_axis_classification.2.1

/-- Witness for C7 at a concrete non-keyboard device. -/
theorem C7_attach_filter_amended_witness :
    Gamepad.attach_accepts 0x1234 0x5678 0 = true ↔ (0 : Nat) ≠ 1 :=
  C7_attach_filter_amended.1 0x1234 0x5678 0
